import Mathlib

/-!
Shallow embedding of the CogmemAi Python SDK client
(`src/cogmemai/client.py`) and verification of its specification.

The client is a thin wrapper over an HTTP+JSON transport.  We embed:

* JSON values (`Json`), with Python truthiness and Python's `dict.get`
  (which raises `AttributeError` on non-dict receivers);
* the client configuration built by `CogmemAi.__init__`;
* the generic response-handling helper `CogmemAi._request`
  (URL composition and the decode/status/error-message policy);
* the outgoing requests built by the domain operations
  (`save_memory`, `list_memories`, `update_memory`, ...).

The HTTP transport itself is the environment: a `Response` carries the
status code, the raw body text, and the outcome of `resp.json()`
(`none` models a `ValueError` from JSON decoding).
-/

namespace Cogmem

/-- JSON values as decoded by `resp.json()` in Python.  Numbers are
modelled as integers (no claim depends on float values); objects keep
insertion order as association lists. -/
inductive Json where
  | null : Json
  | bool : Bool → Json
  | num : Int → Json
  | str : String → Json
  | arr : List Json → Json
  | obj : List (String × Json) → Json
deriving Repr

/-- Python truthiness of a JSON value (`bool(x)`): `None`, `False`, `0`,
`""`, `[]`, `{}` are falsy, everything else truthy. -/
def Json.isTruthy : Json → Bool
  | .null => false
  | .bool b => b
  | .num n => n != 0
  | .str s => s != ""
  | .arr xs => !xs.isEmpty
  | .obj kvs => !kvs.isEmpty

/-- The Python type name of a JSON value, as it appears in an
`AttributeError` message. -/
def Json.typeName : Json → String
  | .null => "NoneType"
  | .bool _ => "bool"
  | .num _ => "int"
  | .str _ => "str"
  | .arr _ => "list"
  | .obj _ => "dict"

/-- Errors that can escape `CogmemAi._request`:
`apiError` is `CogmemAiError(message, status_code)` (the `_request`
helper always passes `resp.status_code`); `attrError` is Python's
`AttributeError` raised by `x.get(...)` when `x` is not a dict, carrying
the receiver's type name. -/
inductive ReqError where
  | apiError : Json → Nat → ReqError
  | attrError : String → ReqError
deriving Repr

/-- Python `data.get(key)`: on a dict, the value (or `None` when the key
is absent); on any other receiver, `AttributeError`. -/
def Json.get : Json → String → Except ReqError Json
  | .obj kvs, k =>
      match kvs.lookup k with
      | some v => .ok v
      | none => .ok .null
  | j, _ => .error (.attrError j.typeName)

/-- An HTTP response as seen by `_request`: the status code, the raw
body text (`resp.text`), and the result of `resp.json()` — `none` when
JSON decoding raises `ValueError`. -/
structure Response where
  status_code : Nat
  text : String
  json : Option Json
deriving Repr

/-- Python `s.startswith(p)`: `p` is a prefix of `s`, by characters. -/
def startswith (s p : String) : Bool :=
  p.data.isPrefixOf s.data

/-- Python `str.rstrip("/")`: remove every trailing `/` character. -/
def rstripSlash (s : String) : String :=
  String.mk ((s.data.reverse.dropWhile (fun c => c == '/')).reverse)

/-- The client's stored configuration, written by `CogmemAi.__init__`
and never mutated afterwards: credential, normalized base URL, timeout,
and the headers attached to the session. -/
structure CogmemAi where
  api_key : String
  base_url : String
  timeout : Nat
  headers : List (String × String)
deriving Repr

/-- The constant `CogmemAi.DEFAULT_BASE_URL`. -/
def DEFAULT_BASE_URL : String := "https://hifriendbot.com/wp-json/hifriendbot/v1"

/-- The constructor `CogmemAi.__init__(api_key, base_url=None, timeout=30)`.
Raises `ValueError` (the spec's `ConfigurationError`) when
`not api_key or not api_key.startswith("cm_")`; otherwise stores the
configuration, with `(base_url or DEFAULT_BASE_URL).rstrip("/")` —
note that an empty-string `base_url` is falsy in Python and therefore
replaced by the default, exactly like `None`. -/
def CogmemAi.init (api_key : String) (base_url : Option String) (timeout : Nat) :
    Except String CogmemAi :=
  if api_key = "" ∨ startswith api_key "cm_" = false then
    .error "API key must start with 'cm_'"
  else
    .ok
      { api_key := api_key
        base_url := rstripSlash
          (match base_url with
            | none => DEFAULT_BASE_URL
            | some s => if s = "" then DEFAULT_BASE_URL else s)
        timeout := timeout
        headers :=
          [("Authorization", "Bearer " ++ api_key),
           ("Content-Type", "application/json")] }

/-- The URL composed by `_request`: `f"{self.base_url}/cogmemai/{path}"`. -/
def CogmemAi.requestUrl (c : CogmemAi) (path : String) : String :=
  c.base_url ++ "/cogmemai/" ++ path

/-- What one call of `_request` produces, given the environment's
response: the URL it sent the request to, the returned value or raised
error, and the client state after the call (the method body assigns to
no attribute of `self`, so it is the input state unchanged). -/
structure RequestOutcome where
  url : String
  result : Except ReqError Json
  client : CogmemAi
deriving Repr

/-- The response-handling policy of `_request` (lines 75–82):
`try: data = resp.json() except ValueError: raise CogmemAiError(...)`,
then `if resp.status_code >= 400:` raise with
`data.get("error") or data.get("message") or resp.text`,
else `return data`. -/
def handleResponse (resp : Response) : Except ReqError Json :=
  match resp.json with
  | none =>
      .error (.apiError (.str ("Invalid JSON response: " ++ resp.text)) resp.status_code)
  | some data =>
      if 400 ≤ resp.status_code then
        match data.get "error" with
        | .error e => .error e
        | .ok v =>
          if v.isTruthy then .error (.apiError v resp.status_code)
          else
            match data.get "message" with
            | .error e => .error e
            | .ok w =>
              if w.isTruthy then .error (.apiError w resp.status_code)
              else .error (.apiError (.str resp.text) resp.status_code)
      else
        .ok data

/-- `CogmemAi._request(method, path, **kwargs)` given the response the
transport returns for the sent request. -/
def CogmemAi.request (c : CogmemAi) (method : String) (path : String)
    (resp : Response) : RequestOutcome :=
  { url := c.requestUrl path
    result := handleResponse resp
    client := c }

/-- The outgoing request a domain operation hands to `_request`: the
HTTP verb, the relative path, the query parameters (`params=` for GET
reads) and the JSON body (`json=` for writes).  Each is `none` when the
corresponding keyword argument is not passed at all. -/
structure OutRequest where
  method : String
  path : String
  params : Option (List (String × Json))
  body : Option (List (String × Json))
deriving Repr

/-- The keys of the query-parameter mapping of an outgoing request. -/
def OutRequest.paramKeys (r : OutRequest) : List String :=
  (r.params.getD []).map Prod.fst

/-- The keys of the JSON body of an outgoing request. -/
def OutRequest.bodyKeys (r : OutRequest) : List String :=
  (r.body.getD []).map Prod.fst

/-- `CogmemAi.save_memory(content, *, memory_type="context",
category="general", subject="", importance=5, scope="project",
project_id="")`: `self._post("store", {...})` with an unconditional
seven-key dict literal. -/
def save_memory (content memory_type category subject : String)
    (importance : Int) (scope project_id : String) : OutRequest :=
  { method := "POST"
    path := "store"
    params := none
    body := some
      [("content", .str content),
       ("memory_type", .str memory_type),
       ("category", .str category),
       ("subject", .str subject),
       ("importance", .num importance),
       ("scope", .str scope),
       ("project_id", .str project_id)] }

/-- `CogmemAi.list_memories(*, memory_type="", category="", scope="all",
limit=50, offset=0)`: `self._get("memories", params)` where `params`
always holds `limit`, `offset`, `scope`, and gains `memory_type` /
`category` only when the argument is truthy (a non-empty string). -/
def list_memories (memory_type category scope : String)
    (limit offset : Int) : OutRequest :=
  let params : List (String × Json) :=
    [("limit", .num limit), ("offset", .num offset), ("scope", .str scope)]
  let params := if memory_type ≠ "" then params ++ [("memory_type", .str memory_type)] else params
  let params := if category ≠ "" then params ++ [("category", .str category)] else params
  { method := "GET", path := "memories", params := some params, body := none }

/-- `CogmemAi.update_memory(memory_id, *, content="", importance=None,
scope="")`: `self._patch(f"memory/{memory_id}", payload)` where
`payload` starts empty and gains `content` / `scope` when truthy
(non-empty) and `importance` when it `is not None`. -/
def update_memory (memory_id : Int) (content : String)
    (importance : Option Int) (scope : String) : OutRequest :=
  let payload : List (String × Json) := []
  let payload := if content ≠ "" then payload ++ [("content", .str content)] else payload
  let payload :=
    match importance with
    | some i => payload ++ [("importance", .num i)]
    | none => payload
  let payload := if scope ≠ "" then payload ++ [("scope", .str scope)] else payload
  { method := "PATCH"
    path := "memory/" ++ toString memory_id
    params := none
    body := some payload }

/-- On a dict receiver, Python `dict.get` is total and returns the
looked-up value, defaulting to `None`. -/
theorem Json.get_obj (kvs : List (String × Json)) (k : String) :
    Json.get (.obj kvs) k = .ok ((kvs.lookup k).getD .null) := by
  cases hl : kvs.lookup k <;> simp [Json.get, hl]

/-- A concrete, validly constructed client used by witnesses and
counterexamples; it is `CogmemAi.init "cm_key" (some "https://x/api/") 30`. -/
def sampleClient : CogmemAi :=
  { api_key := "cm_key"
    base_url := "https://x/api"
    timeout := 30
    headers :=
      [("Authorization", "Bearer cm_key"),
       ("Content-Type", "application/json")] }

/-! ## Claim theorems -/

/-- C1 (counterexample): a status-200 response whose body is not JSON
fails with `CogmemAiError`, but its message is NOT the raw response
text: the code prepends "Invalid JSON response: " to it. -/
theorem c1_counterexample :
    (sampleClient.request "GET" "usage"
        { status_code := 200, text := "not json", json := none }).result
      = .error (.apiError (.str "Invalid JSON response: not json") 200)
    ∧ "Invalid JSON response: not json" ≠ "not json" :=
  ⟨rfl, by decide⟩

/-- C1 (amended): for every response whose body cannot be decoded as
JSON, `_request` fails with `CogmemAiError` whose message is the raw
response text prefixed with "Invalid JSON response: " and whose status
code is the HTTP status, for every status code (2xx included) — the
JSON-decode check precedes any status-code inspection. -/
theorem c1_invalid_json_always_fails (c : CogmemAi) (method path : String)
    (resp : Response) (h : resp.json = none) :
    (c.request method path resp).result
      = .error (.apiError (.str ("Invalid JSON response: " ++ resp.text))
          resp.status_code) := by
  simp [CogmemAi.request, handleResponse, h]

/-- Witness for C1 at a concrete 200-status response with body "oops". -/
theorem c1_witness :
    (({ status_code := 200, text := "oops", json := none } : Response).json = none)
    ∧ (sampleClient.request "GET" "usage"
          { status_code := 200, text := "oops", json := none }).result
        = .error (.apiError (.str ("Invalid JSON response: " ++ "oops")) 200) :=
  ⟨rfl, c1_invalid_json_always_fails sampleClient "GET" "usage"
      { status_code := 200, text := "oops", json := none } rfl⟩

/-- C2 (counterexample): a 500 response whose JSON object body HAS an
`error` field, with value `""`, does not yield that value as the
message: the `or`-chain skips falsy values, so the message falls back
to the raw response text. -/
theorem c2_counterexample :
    (sampleClient.request "GET" "usage"
        { status_code := 500, text := "raw body",
          json := some (.obj [("error", .str "")]) }).result
      = .error (.apiError (.str "raw body") 500)
    ∧ Json.str "raw body" ≠ Json.str "" :=
  ⟨rfl, by simp⟩

/-- C2 (amended): for every ≥400 response with a JSON-object body, the
operation fails with `CogmemAiError` whose status is the HTTP status
and whose message is chosen by TRUTHINESS in priority order: the
`error` field if present and truthy, else the `message` field if
present and truthy, else the raw response text. -/
theorem c2_error_message_by_truthiness (c : CogmemAi) (method path : String)
    (resp : Response) (kvs : List (String × Json))
    (hj : resp.json = some (.obj kvs)) (hs : 400 ≤ resp.status_code) :
    (c.request method path resp).result
      = .error (.apiError
          (if ((kvs.lookup "error").getD .null).isTruthy then
            (kvs.lookup "error").getD .null
           else if ((kvs.lookup "message").getD .null).isTruthy then
            (kvs.lookup "message").getD .null
           else .str resp.text)
          resp.status_code) := by
  simp [CogmemAi.request, handleResponse, hj, hs, Json.get_obj]
  by_cases he : ((kvs.lookup "error").getD Json.null).isTruthy = true <;>
    by_cases hm : ((kvs.lookup "message").getD Json.null).isTruthy = true <;>
      simp [he, hm]

/-- Witness for C2 at a concrete 404 response whose body has only a
`message` field. -/
theorem c2_witness :
    400 ≤ (404 : Nat)
    ∧ (sampleClient.request "GET" "usage"
          { status_code := 404, text := "raw",
            json := some (.obj [("message", .str "nope")]) }).result
        = .error (.apiError (.str "nope") 404) :=
  ⟨by decide,
   c2_error_message_by_truthiness sampleClient "GET" "usage"
      { status_code := 404, text := "raw",
        json := some (.obj [("message", .str "nope")]) }
      [("message", .str "nope")] rfl (by decide)⟩

/-- C3: construction fails (with `ValueError`, the spec's
`ConfigurationError`) exactly when the credential is empty or does not
start with "cm_"; equivalently, every credential starting with "cm_"
constructs successfully.  The constructor is a pure function of its
arguments: no network interaction is involved. -/
theorem c3_credential_validated_at_construction (api_key : String)
    (base_url : Option String) (timeout : Nat) :
    (CogmemAi.init api_key base_url timeout).isOk = false
      ↔ (api_key = "" ∨ startswith api_key "cm_" = false) := by
  unfold CogmemAi.init
  split
  · rename_i h
    simp [Except.isOk, Except.toBool, h]
  · rename_i h
    simp [Except.isOk, Except.toBool, h]

/-- C4 (counterexample): the quantification over every base_url fails
at the empty string: `base_url or DEFAULT_BASE_URL` treats `""` as
falsy, so construction with `base_url=""` uses the default root and
requests go to the default host, not to `"" + "/cogmemai/..."`. -/
theorem c4_counterexample :
    (CogmemAi.init "cm_key" (some "") 30).map
        (fun c => (c.request "GET" "memories"
            { status_code := 200, text := "x", json := some (.obj []) }).url)
      = .ok "https://hifriendbot.com/wp-json/hifriendbot/v1/cogmemai/memories"
    ∧ rstripSlash "" ++ "/cogmemai/" ++ "memories" = "/cogmemai/memories"
    ∧ "https://hifriendbot.com/wp-json/hifriendbot/v1/cogmemai/memories"
        ≠ "/cogmemai/memories" :=
  ⟨rfl, rfl, by decide⟩

/-- C4 (amended): for every NON-EMPTY base_url and every path, each
outgoing request URL is the base_url with trailing slashes stripped,
then "/cogmemai/", then the path; an empty base_url is replaced by the
default service root at construction. -/
theorem c4_url_is_stripped_base (api_key b : String) (t : Nat)
    (method path : String) (resp : Response) (c : CogmemAi) (hb : b ≠ "")
    (h : CogmemAi.init api_key (some b) t = .ok c) :
    (c.request method path resp).url = rstripSlash b ++ "/cogmemai/" ++ path := by
  unfold CogmemAi.init at h
  split at h
  · exact absurd h (by simp)
  · cases h
    simp [CogmemAi.request, CogmemAi.requestUrl, hb]

/-- Witness for C4 at base_url "https://x/api/" (trailing slash) and
path "memories": the URL is "https://x/api/cogmemai/memories". -/
theorem c4_witness :
    "https://x/api/" ≠ ""
    ∧ (sampleClient.request "GET" "memories"
          { status_code := 200, text := "x", json := some (.obj []) }).url
        = rstripSlash "https://x/api/" ++ "/cogmemai/" ++ "memories" :=
  ⟨by decide,
   c4_url_is_stripped_base "cm_key" "https://x/api/" 30 "GET" "memories"
      { status_code := 200, text := "x", json := some (.obj []) }
      sampleClient (by decide) (by rfl)⟩

/-- C5: for every response with status < 400 whose body decodes as
JSON, `_request` returns the decoded body exactly as decoded. -/
theorem c5_success_returns_decoded_body (c : CogmemAi) (method path : String)
    (resp : Response) (data : Json) (hj : resp.json = some data)
    (hs : resp.status_code < 400) :
    (c.request method path resp).result = .ok data := by
  simp [CogmemAi.request, handleResponse, hj, Nat.not_le.mpr hs]

/-- Witness for C5 at a concrete 200 response with a decoded object body. -/
theorem c5_witness :
    (({ status_code := 200, text := "ok",
        json := some (.obj [("stored", .bool true)]) } : Response).json
        = some (.obj [("stored", .bool true)]))
    ∧ (200 : Nat) < 400
    ∧ (sampleClient.request "GET" "usage"
          { status_code := 200, text := "ok",
            json := some (.obj [("stored", .bool true)]) }).result
        = .ok (.obj [("stored", .bool true)]) :=
  ⟨rfl, by decide,
   c5_success_returns_decoded_body sampleClient "GET" "usage"
      { status_code := 200, text := "ok",
        json := some (.obj [("stored", .bool true)]) }
      (.obj [("stored", .bool true)]) rfl (by decide)⟩

/-- C6: `update_memory` called with only `importance` supplied (content
and scope at their `""` defaults) sends a PATCH body that is exactly
the one-key mapping `importance`. -/
theorem c6_update_memory_importance_only (memory_id : Int) (importance : Int) :
    (update_memory memory_id "" (some importance) "").body
      = some [("importance", Json.num importance)] := by
  simp [update_memory]

/-- C7: `list_memories` with no filters sends query parameters exactly
`limit`, `offset`, `scope`; and for every argument choice, each filter
key is present iff the caller supplied a non-empty value for it. -/
theorem c7_list_memories_filter_keys (scope : String) (limit offset : Int) :
    ((list_memories "" "" scope limit offset).params
        = some [("limit", Json.num limit), ("offset", Json.num offset),
            ("scope", Json.str scope)])
    ∧ ∀ memory_type category : String,
        ("memory_type" ∈ (list_memories memory_type category scope limit offset).paramKeys
            ↔ memory_type ≠ "")
        ∧ ("category" ∈ (list_memories memory_type category scope limit offset).paramKeys
            ↔ category ≠ "") := by
  refine ⟨rfl, fun memory_type category => ?_⟩
  by_cases hm : memory_type = "" <;> by_cases hc : category = "" <;>
    simp [list_memories, OutRequest.paramKeys, hm, hc]

/-- C8: `_request` leaves the client's stored configuration (credential,
base URL, timeout, headers) unchanged, whether the call succeeds or
fails: its body assigns to no attribute of `self`. -/
theorem c8_request_leaves_client_unchanged (c : CogmemAi) (method path : String)
    (resp : Response) :
    (c.request method path resp).client = c := rfl

/-- C9: a 500 response whose body is the valid-JSON array `[1, 2]`
makes the error branch evaluate `data.get("error")` on a list, which
raises `AttributeError` — not the intended `CogmemAiError`. -/
theorem c9_nondict_error_body_attributeError :
    (sampleClient.request "GET" "usage"
        { status_code := 500, text := "[1, 2]",
          json := some (.arr [.num 1, .num 2]) }).result
      = .error (.attrError "list") := rfl

/-- C10: `save_memory` always sends all seven keys, in order, for every
combination of arguments — including empty-string `subject` and
`project_id` — so it does not follow the sparse-payload convention. -/
theorem c10_save_memory_always_all_seven_keys
    (content memory_type category subject : String) (importance : Int)
    (scope project_id : String) :
    (save_memory content memory_type category subject importance scope
        project_id).bodyKeys
      = ["content", "memory_type", "category", "subject", "importance",
         "scope", "project_id"] := rfl

end Cogmem
